import Mathlib

/-!
Shallow embedding of `src/futon/futon.py`: a minimal CouchDB client with a
`Database` class (exists / create / find / insert_one / insert_many) and a
`Client` class (construction, `__getitem__`, memoized `databases` property).

HTTP is modelled as an oracle `Http : HttpRequest → Except Unit HttpResponse`
(`.error` is a transport-level failure such as DNS/TLS/connection refusal).
Every operation returns its Python result together with the ordered list of
HTTP requests it issued, so that claims about side effects (which requests,
how many, with which bodies and credentials) can be stated.

Python values are embedded as follows: JSON-compatible values become `Json`;
`None`-or-string parameters become `Option String`; Python truthiness of the
relevant types is spelled out explicitly (`pyTruthyStr`, `Json.truthy`, ...).
`requests.Response.raise_for_status` raises exactly for status codes in
[400, 600), which `raiseForStatus` mirrors.
-/

namespace Futon

/-- JSON-compatible values (Python dict/list/str/int/bool/None). Objects keep
their insertion order, matching Python dict semantics. -/
inductive Json where
  | null
  | bool (b : Bool)
  | num (n : Int)
  | str (s : String)
  | arr (elems : List Json)
  | obj (fields : List (String × Json))

/-- HTTP method of a request issued by the client. -/
inductive Method where
  | GET
  | HEAD
  | PUT
  | POST
deriving DecidableEq

/-- One HTTP request as built by the `requests.<method>(...)` calls in the
source: URL, optional JSON body, optional basic-auth pair, and the `verify`
argument (the CA certificate path). -/
structure HttpRequest where
  method : Method
  url : String
  body : Option Json
  auth : Option (String × String)
  verify : Option String

/-- An HTTP response: status code and decoded JSON body. -/
structure HttpResponse where
  status : Nat
  body : Json

/-- The transport oracle: what the network answers to each request.
`.error ()` models a transport failure (DNS, TLS, connection refusal),
which `requests` raises as a `RequestException` before any status exists. -/
def Http : Type := HttpRequest → Except Unit HttpResponse

/-- `requests.exceptions.RequestException`: either a transport failure or an
`HTTPError` raised by `raise_for_status` (carrying the offending status). -/
inductive RequestError where
  | transport
  | httpError (status : Nat)
deriving DecidableEq

/-- `response.raise_for_status()`: raises `HTTPError` exactly for status
codes in [400, 600) (4xx client errors and 5xx server errors); any other
status returns normally. -/
def raiseForStatus (status : Nat) : Except RequestError Unit :=
  if 400 ≤ status ∧ status < 600 then .error (.httpError status) else .ok ()

/-- Python truthiness of an optional string: `None` and `""` are falsy. -/
def pyTruthyStr : Option String → Bool
  | none => false
  | some s => s ≠ ""

/-- Python truthiness of a `Json` value (`bool({})` is false, `bool([])` is
false, etc.). -/
def Json.truthy : Json → Bool
  | .null => false
  | .bool b => b
  | .num n => n ≠ 0
  | .str s => s ≠ ""
  | .arr elems => !elems.isEmpty
  | .obj fields => !fields.isEmpty

/-- The line `auth = (self.username, self.password) if self.username and
self.password else None` that every operation repeats verbatim. -/
def mkAuth (username password : Option String) : Option (String × String) :=
  if pyTruthyStr username && pyTruthyStr password then
    some (username.getD "", password.getD "")
  else none

/-- Python `str.rstrip("/")`: remove every trailing `'/'` character. -/
def rstripSlashes (s : String) : String :=
  String.mk ((s.data.reverse.dropWhile (fun c => c = '/')).reverse)

/-- The `Database` object: connection parameters plus the database name.
Fields hold the values as stored by `__init__` (URL already stripped). -/
structure Database where
  couchdb_url : String
  username : Option String
  password : Option String
  ca_cert_path : Option String
  db_name : String
deriving DecidableEq

/-- `Database.__init__`: strips trailing slashes from the URL, stores the
remaining parameters unchanged. -/
def Database.init (couchdb_url : String) (username password ca_cert_path : Option String)
    (db_name : String) : Database :=
  { couchdb_url := rstripSlashes couchdb_url
    username := username
    password := password
    ca_cert_path := ca_cert_path
    db_name := db_name }

/-- The `HEAD {endpoint}/{name}` request built inside `Database.exists`
(`db_url = f"{self.couchdb_url}/{self.db_name}"` plus the shared auth line). -/
def Database.headReq (db : Database) : HttpRequest :=
  { method := .HEAD, url := db.couchdb_url ++ "/" ++ db.db_name, body := none,
    auth := mkAuth db.username db.password, verify := db.ca_cert_path }

/-- The `PUT {endpoint}/{name}` request built inside `Database.create`. -/
def Database.putReq (db : Database) : HttpRequest :=
  { method := .PUT, url := db.couchdb_url ++ "/" ++ db.db_name, body := none,
    auth := mkAuth db.username db.password, verify := db.ca_cert_path }

/-- `Database.exists`: `HEAD {endpoint}/{name}`; 200 ↦ `True`, 404 ↦ `False`,
otherwise `raise_for_status()` — which raises only for 400–599; for any other
status the Python function falls off the end of the `try` block and returns
`None`, embedded here as `.ok none` (result type `Option Bool`:
`some b` is a Python bool, `none` is Python `None`). -/
def Database.exists (db : Database) (http : Http) :
    Except RequestError (Option Bool) × List HttpRequest :=
  match http db.headReq with
  | .error _ => (.error .transport, [db.headReq])
  | .ok response =>
    if response.status = 200 then (.ok (some true), [db.headReq])
    else if response.status = 404 then (.ok (some false), [db.headReq])
    else
      match raiseForStatus response.status with
      | .error e => (.error e, [db.headReq])
      | .ok _ => (.ok none, [db.headReq])

/-- `Database.create`: `if self.exists(): return False` (the truthiness test
passes only for Python `True`, i.e. `some true`); otherwise
`PUT {endpoint}/{name}` followed by `raise_for_status()`, returning `True`. -/
def Database.create (db : Database) (http : Http) :
    Except RequestError Bool × List HttpRequest :=
  match db.exists http with
  | (.error e, t) => (.error e, t)
  | (.ok r, t) =>
    if r = some true then (.ok false, t)
    else
      match http db.putReq with
      | .error _ => (.error .transport, t ++ [db.putReq])
      | .ok response =>
        match raiseForStatus response.status with
        | .error e => (.error e, t ++ [db.putReq])
        | .ok _ => (.ok true, t ++ [db.putReq])

/-- The polymorphic `sort` argument of `Database.find`: a field name
(Python `str`), a Mango-style list of sort conditions (Python `list`), or
any other value — for which only its truthiness matters, since the code
tests `if sort:` and then `isinstance`. -/
inductive SortArg where
  | str (s : String)
  | list (l : List Json)
  | other (b : Bool)

/-- Python truthiness of a `sort` argument value. -/
def SortArg.truthy : SortArg → Bool
  | .str s => s ≠ ""
  | .list l => !l.isEmpty
  | .other b => b

/-- The `{"selector": selector}` initial payload, after
`selector = selector if selector else {}`. -/
def selectorEntry (selector : Option (List (String × Json))) : List (String × Json) :=
  [("selector", Json.obj (match selector with
    | some s => if s.isEmpty then [] else s
    | none => []))]

/-- `if columns: payload["fields"] = columns`. -/
def fieldsEntry (columns : Option (List Json)) : List (String × Json) :=
  match columns with
  | some cols => if cols.isEmpty then [] else [("fields", Json.arr cols)]
  | none => []

/-- `if sort:` followed by the `isinstance(sort, str)` /
`isinstance(sort, list)` dispatch; any other truthy value matches neither
branch and adds no key. -/
def sortEntry (sort : Option SortArg) (descending : Bool) : List (String × Json) :=
  match sort with
  | some sa =>
    if sa.truthy then
      match sa with
      | .str s =>
        [("sort", Json.arr [Json.obj [(s, Json.str (if descending then "desc" else "asc"))]])]
      | .list l => [("sort", Json.arr l)]
      | .other _ => []
    else []
  | none => []

/-- `if limit: payload["limit"] = limit`. -/
def limitEntry (limit : Option Int) : List (String × Json) :=
  match limit with
  | some n => if n = 0 then [] else [("limit", Json.num n)]
  | none => []

/-- The JSON payload `Database.find` builds: the keys `selector`,
`fields`, `sort`, `limit` in the insertion order of the source. -/
def findPayload (selector : Option (List (String × Json))) (columns : Option (List Json))
    (sort : Option SortArg) (descending : Bool) (limit : Option Int) :
    List (String × Json) :=
  selectorEntry selector ++ fieldsEntry columns ++ sortEntry sort descending ++ limitEntry limit

/-- The single POST request `Database.find` issues. -/
def findReq (db : Database) (selector : Option (List (String × Json)))
    (columns : Option (List Json)) (sort : Option SortArg) (descending : Bool)
    (limit : Option Int) : HttpRequest :=
  { method := .POST
    url := db.couchdb_url ++ "/" ++ db.db_name ++ "/_find"
    body := some (Json.obj (findPayload selector columns sort descending limit))
    auth := mkAuth db.username db.password
    verify := db.ca_cert_path }

/-- `data.get("docs", [])` on the decoded response body. The source only
ever applies it to a decoded JSON object (a Python dict); the non-object
fallback here is never exercised by the claims. -/
def docsOf : Json → Json
  | .obj fields =>
    match fields.lookup "docs" with
    | some v => v
    | none => Json.arr []
  | _ => Json.arr []

/-- `Database.find`: builds the Mango payload, POSTs it to
`{endpoint}/{name}/_find`, raises for 4xx/5xx, and returns
`data.get("docs", [])`. -/
def Database.find (db : Database) (selector : Option (List (String × Json)))
    (columns : Option (List Json)) (sort : Option SortArg) (descending : Bool)
    (limit : Option Int) (http : Http) : Except RequestError Json × List HttpRequest :=
  match http (findReq db selector columns sort descending limit) with
  | .error _ => (.error .transport, [findReq db selector columns sort descending limit])
  | .ok response =>
    match raiseForStatus response.status with
    | .error e => (.error e, [findReq db selector columns sort descending limit])
    | .ok _ => (.ok (docsOf response.body), [findReq db selector columns sort descending limit])

/-- The `POST {endpoint}/{name}/_bulk_docs` request with body
`{"docs": records}` built inside `Database.insert_many`. -/
def bulkDocsReq (db : Database) (records : List Json) : HttpRequest :=
  { method := .POST, url := db.couchdb_url ++ "/" ++ db.db_name ++ "/_bulk_docs",
    body := some (Json.obj [("docs", Json.arr records)]),
    auth := mkAuth db.username db.password, verify := db.ca_cert_path }

/-- `Database.insert_many`: POSTs `{"docs": records}` to
`{endpoint}/{name}/_bulk_docs`, raises for 4xx/5xx, returns the decoded
response body unchanged. -/
def Database.insert_many (db : Database) (records : List Json) (http : Http) :
    Except RequestError Json × List HttpRequest :=
  match http (bulkDocsReq db records) with
  | .error _ => (.error .transport, [bulkDocsReq db records])
  | .ok response =>
    match raiseForStatus response.status with
    | .error e => (.error e, [bulkDocsReq db records])
    | .ok _ => (.ok response.body, [bulkDocsReq db records])

/-- The `POST {endpoint}/{name}` request with the document as body built
inside `Database.insert_one`. -/
def insertOneReq (db : Database) (document : Json) : HttpRequest :=
  { method := .POST, url := db.couchdb_url ++ "/" ++ db.db_name, body := some document,
    auth := mkAuth db.username db.password, verify := db.ca_cert_path }

/-- `Database.insert_one`: POSTs the document itself (no wrapper) to
`{endpoint}/{name}`, raises for 4xx/5xx, returns the decoded response. -/
def Database.insert_one (db : Database) (document : Json) (http : Http) :
    Except RequestError Json × List HttpRequest :=
  match http (insertOneReq db document) with
  | .error _ => (.error .transport, [insertOneReq db document])
  | .ok response =>
    match raiseForStatus response.status with
    | .error e => (.error e, [insertOneReq db document])
    | .ok _ => (.ok response.body, [insertOneReq db document])

/-- The `Client` object: connection parameters plus the lazily populated
`_databases` memo field (`None` until the first successful listing). -/
structure Client where
  couchdb_url : String
  username : Option String
  password : Option String
  ca_cert_path : Option String
  _databases : Option Json

/-- `Client.__init__`: strips trailing slashes from the URL and starts with
an empty memo field. -/
def Client.init (couchdb_url : String) (username password ca_cert_path : Option String) :
    Client :=
  { couchdb_url := rstripSlashes couchdb_url
    username := username
    password := password
    ca_cert_path := ca_cert_path
    _databases := none }

/-- `Client.__getitem__`: pure construction of a `Database` handle, no
network contact. -/
def Client.getItem (c : Client) (db_name : String) : Database :=
  Database.init c.couchdb_url c.username c.password c.ca_cert_path db_name

/-- Python truthiness of the `_databases` field (`if self._databases:`):
`None` is falsy, a stored JSON value is as truthy as the value itself. -/
def pyTruthyOptJson : Option Json → Bool
  | none => false
  | some j => j.truthy

/-- The `GET {endpoint}/_all_dbs` request built inside `Client.databases`. -/
def Client.allDbsReq (c : Client) : HttpRequest :=
  { method := .GET, url := c.couchdb_url ++ "/_all_dbs", body := none,
    auth := mkAuth c.username c.password, verify := c.ca_cert_path }

/-- The `Client.databases` property: if `self._databases` is truthy, return
it with no network call; otherwise `GET {endpoint}/_all_dbs`, raise for
4xx/5xx, store the decoded body in `_databases` and return it. Returns the
Python result, the client as left after the call, and the issued requests. -/
def Client.databases (c : Client) (http : Http) :
    Except RequestError Json × Client × List HttpRequest :=
  if pyTruthyOptJson c._databases then (.ok (c._databases.getD Json.null), c, [])
  else
    match http c.allDbsReq with
    | .error _ => (.error .transport, c, [c.allDbsReq])
    | .ok response =>
      match raiseForStatus response.status with
      | .error e => (.error e, c, [c.allDbsReq])
      | .ok _ => (.ok response.body, { c with _databases := some response.body }, [c.allDbsReq])

/-! General lemmas about the embedded operations, shared by the claim
theorems below. -/

/-- `Database.exists` always issues exactly its HEAD request. -/
theorem exists_trace (db : Database) (http : Http) : (db.exists http).2 = [db.headReq] := by
  unfold Database.exists
  cases http db.headReq with
  | error e => rfl
  | ok response =>
    dsimp only
    split
    · rfl
    · split
      · rfl
      · split <;> rfl

/-- `Database.find` always issues exactly its POST request. -/
theorem find_trace (db : Database) (sel : Option (List (String × Json)))
    (cols : Option (List Json)) (sortArg : Option SortArg) (descending : Bool)
    (lim : Option Int) (http : Http) :
    (db.find sel cols sortArg descending lim http).2
      = [findReq db sel cols sortArg descending lim] := by
  unfold Database.find
  cases http (findReq db sel cols sortArg descending lim) with
  | error e => rfl
  | ok response =>
    dsimp only
    split <;> rfl

/-- On a cache miss, `Client.databases` issues exactly its GET request. -/
theorem databases_fetch_trace (c : Client) (http : Http)
    (h : pyTruthyOptJson c._databases = false) :
    (c.databases http).2.2 = [c.allDbsReq] := by
  unfold Client.databases
  rw [if_neg (by simp [h])]
  cases http c.allDbsReq with
  | error e => rfl
  | ok response =>
    dsimp only
    split <;> rfl

/-- Association-list lookup skips a prefix that lacks the key. -/
theorem lookup_append_of_none {k : String} {xs ys : List (String × Json)}
    (h : xs.lookup k = none) : (xs ++ ys).lookup k = ys.lookup k := by
  induction xs with
  | nil => rfl
  | cons p xs ih =>
    obtain ⟨a, b⟩ := p
    rw [List.lookup_cons] at h
    show List.lookup k ((a, b) :: (xs ++ ys)) = List.lookup k ys
    rw [List.lookup_cons]
    cases hk : k == a with
    | true => rw [hk] at h; exact Option.noConfusion h
    | false => rw [hk] at h; exact ih h

/-- The selector entry never holds a key other than `"selector"`. -/
theorem selectorEntry_lookup_ne (sel : Option (List (String × Json))) (k : String)
    (hk : (k == "selector") = false) : (selectorEntry sel).lookup k = none := by
  unfold selectorEntry
  rw [List.lookup_cons, hk]
  rfl

/-- The fields entry never holds a key other than `"fields"`. -/
theorem fieldsEntry_lookup_ne (cols : Option (List Json)) (k : String)
    (hk : (k == "fields") = false) : (fieldsEntry cols).lookup k = none := by
  unfold fieldsEntry
  cases cols with
  | none => rfl
  | some cs =>
    dsimp only
    split
    · rfl
    · rw [List.lookup_cons, hk]
      rfl

/-- The sort entry never holds a key other than `"sort"`. -/
theorem sortEntry_lookup_ne (sortArg : Option SortArg) (d : Bool) (k : String)
    (hk : (k == "sort") = false) : (sortEntry sortArg d).lookup k = none := by
  unfold sortEntry
  cases sortArg with
  | none => rfl
  | some sa =>
    cases sa with
    | str s =>
      dsimp only
      split
      · rw [List.lookup_cons, hk]
        rfl
      · rfl
    | list l =>
      dsimp only
      split
      · rw [List.lookup_cons, hk]
        rfl
      · rfl
    | other b =>
      dsimp only
      split <;> rfl

/-- The limit entry never holds a key other than `"limit"`. -/
theorem limitEntry_lookup_ne (lim : Option Int) (k : String)
    (hk : (k == "limit") = false) : (limitEntry lim).lookup k = none := by
  unfold limitEntry
  cases lim with
  | none => rfl
  | some n =>
    dsimp only
    split
    · rfl
    · rw [List.lookup_cons, hk]
      rfl

/-- Looking up `"sort"` in the full payload reduces to the sort and limit
entries. -/
theorem findPayload_lookup_sort (sel : Option (List (String × Json)))
    (cols : Option (List Json)) (sortArg : Option SortArg) (d : Bool) (lim : Option Int) :
    (findPayload sel cols sortArg d lim).lookup "sort"
      = ((sortEntry sortArg d) ++ limitEntry lim).lookup "sort" := by
  unfold findPayload
  rw [List.append_assoc, List.append_assoc,
    lookup_append_of_none (selectorEntry_lookup_ne sel "sort" rfl),
    lookup_append_of_none (fieldsEntry_lookup_ne cols "sort" rfl)]

/-- A non-empty string `sort` argument yields the one-element sort list. -/
theorem sortEntry_str (s : String) (hs : s ≠ "") (d : Bool) :
    sortEntry (some (.str s)) d
      = [("sort", Json.arr [Json.obj [(s, Json.str (if d then "desc" else "asc"))]])] := by
  unfold sortEntry
  dsimp only
  rw [if_pos (by simp [SortArg.truthy, hs])]

/-- A non-empty list `sort` argument is passed through unchanged. -/
theorem sortEntry_list (l : List Json) (hl : l ≠ []) (d : Bool) :
    sortEntry (some (.list l)) d = [("sort", Json.arr l)] := by
  unfold sortEntry
  dsimp only
  rw [if_pos (by simp [SortArg.truthy, hl])]

/-- For a list `sort` argument, `descending` does not influence the entry. -/
theorem sortEntry_list_descending_irrelevant (l : List Json) (d d' : Bool) :
    sortEntry (some (.list l)) d = sortEntry (some (.list l)) d' := by
  unfold sortEntry
  dsimp only

/-- `Database.insert_one` always issues exactly its POST request. -/
theorem insert_one_trace (db : Database) (document : Json) (http : Http) :
    (db.insert_one document http).2 = [insertOneReq db document] := by
  unfold Database.insert_one
  cases http (insertOneReq db document) with
  | error u => rfl
  | ok response =>
    dsimp only
    split <;> rfl

/-- `Database.insert_many` always issues exactly its POST request. -/
theorem insert_many_trace (db : Database) (records : List Json) (http : Http) :
    (db.insert_many records http).2 = [bulkDocsReq db records] := by
  unfold Database.insert_many
  cases http (bulkDocsReq db records) with
  | error u => rfl
  | ok response =>
    dsimp only
    split <;> rfl

/-- `Database.create` issues either only the HEAD request of `exists`, or
the HEAD request followed by its PUT request. -/
theorem create_trace_cases (db : Database) (http : Http) :
    (db.create http).2 = [db.headReq] ∨ (db.create http).2 = [db.headReq, db.putReq] := by
  have htr := exists_trace db http
  unfold Database.create
  rcases hex : db.exists http with ⟨r, t⟩
  rw [hex] at htr
  dsimp only at htr
  subst htr
  cases r with
  | error e => exact Or.inl rfl
  | ok rr =>
    dsimp only
    by_cases hr : rr = some true
    · rw [if_pos hr]
      exact Or.inl rfl
    · rw [if_neg hr]
      cases http db.putReq with
      | error u => exact Or.inr rfl
      | ok resp =>
        dsimp only
        cases raiseForStatus resp.status with
        | error e => exact Or.inr rfl
        | ok u => exact Or.inr rfl

/-- Dropping leading slashes ignores a block of slashes in front. -/
theorem dropWhile_replicate_slash (k : Nat) (l : List Char) :
    (List.replicate k '/' ++ l).dropWhile (fun c => c = '/')
      = l.dropWhile (fun c => c = '/') := by
  induction k with
  | zero => rfl
  | succ m ih =>
    rw [List.replicate_succ, List.cons_append, List.dropWhile_cons, if_pos (by decide)]
    exact ih

/-- Appending trailing slashes does not change the stripped URL. -/
theorem rstripSlashes_append_slashes (e : String) (k : Nat) :
    rstripSlashes (e ++ String.mk (List.replicate k '/')) = rstripSlashes e := by
  unfold rstripSlashes
  rw [String.data_append,
    show (String.mk (List.replicate k '/')).data = List.replicate k '/' from rfl,
    List.reverse_append, List.reverse_replicate, dropWhile_replicate_slash]

/-- The head of `dropWhile (· = '/')` is never a slash. -/
theorem head?_dropWhile_slash (m : List Char) :
    (m.dropWhile (fun c => c = '/')).head? ≠ some '/' := by
  induction m with
  | nil => simp [List.dropWhile]
  | cons a m ih =>
    rw [List.dropWhile_cons]
    by_cases ha : a = '/'
    · rw [if_pos (by simp [ha])]
      exact ih
    · rw [if_neg (by simp [ha])]
      simp [ha]

/-- A stripped URL never ends in a slash. -/
theorem rstripSlashes_no_trailing (s : String) :
    (rstripSlashes s).data.getLast? ≠ some '/' := by
  unfold rstripSlashes
  rw [show (String.mk ((s.data.reverse.dropWhile (fun c => c = '/')).reverse)).data
      = (s.data.reverse.dropWhile (fun c => c = '/')).reverse from rfl,
    List.getLast?_reverse]
  exact head?_dropWhile_slash s.data.reverse

/-- Extracts the `"sort"` field of the JSON-object body of a one-request
trace; used to state claims about the payload `Database.find` sends. -/
def traceSortField (t : List HttpRequest) : Option Json :=
  match t with
  | [r] =>
    match r.body with
    | some (Json.obj payload) => payload.lookup "sort"
    | _ => none
  | _ => none

/-! Concrete fixtures for counterexamples and witnesses. -/

/-- An unauthenticated database handle. -/
def db0 : Database := Database.init "http://h" none none none "db"

/-- An authenticated database handle. -/
def dbA : Database := Database.init "http://h" (some "u") (some "p") none "db"

/-- A fresh unauthenticated client. -/
def c0 : Client := Client.init "http://h" none none none

/-- A transport that answers every request with status 201. -/
def h201 : Http := fun _ => .ok ⟨201, Json.null⟩

/-- A transport answering HEAD with 404 and everything else with 301. -/
def h34 : Http := fun r => if r.method = Method.HEAD then .ok ⟨404, Json.null⟩ else .ok ⟨301, Json.null⟩

/-- A transport answering HEAD with 404 and everything else with 500. -/
def h345 : Http := fun r => if r.method = Method.HEAD then .ok ⟨404, Json.null⟩ else .ok ⟨500, Json.null⟩

/-- A transport that answers every request with status 200, empty body. -/
def hHead200 : Http := fun _ => .ok ⟨200, Json.null⟩

/-- A transport answering with an empty database listing. -/
def hEmptyList : Http := fun _ => .ok ⟨200, Json.arr []⟩

/-- A transport answering with a one-element database listing. -/
def hOneDb : Http := fun _ => .ok ⟨200, Json.arr [Json.str "a"]⟩

/-- A transport where every request fails at the transport level. -/
def hFailTransport : Http := fun _ => .error ()

/-- A transport that answers every request with status 500. -/
def h500 : Http := fun _ => .ok ⟨500, Json.null⟩

/-- A transport answering 200 with an empty-object body. -/
def hFind : Http := fun _ => .ok ⟨200, Json.obj []⟩

/-- A transport answering 200 with a body that has a `docs` key. -/
def hDocs : Http := fun _ => .ok ⟨200, Json.obj [("docs", Json.arr [Json.num 1])]⟩

/-- A transport answering 200 with a body that lacks the `docs` key. -/
def hNoDocs : Http := fun _ => .ok ⟨200, Json.obj [("x", Json.null)]⟩

/-- `c0` after a successful listing that returned `["a"]`. -/
def cOneDb : Client := { c0 with _databases := some (Json.arr [Json.str "a"]) }

/-! Claim theorems. -/

/-- C1: the claim (and the code's own docstring and inline comment) says
`Database.exists` must raise `RequestError` for every HEAD status other
than 200 and 404; instead, for status 201 the code falls through
`raise_for_status` (which raises only for 400–599) and silently returns
Python `None` — a non-error, non-bool value — after issuing only its HEAD
request. -/
theorem C1_exists_unexpected_status_silently_returns_none :
    (db0.exists h201).1 = .ok none ∧ (db0.exists h201).2 = [db0.headReq] :=
  ⟨rfl, rfl⟩

/-- C2 counterexample: a first `databases` call that succeeds with an empty
list is not memoized — `if self._databases:` is false for `[]` — so a
second access on the same client issues a second network request (two
requests in total, not exactly one). -/
theorem C2_counterexample_empty_list_not_memoized :
    (c0.databases hEmptyList).1 = .ok (Json.arr []) ∧
    (c0.databases hEmptyList).2.2 = [c0.allDbsReq] ∧
    ((c0.databases hEmptyList).2.1.databases hEmptyList).2.2 = [c0.allDbsReq] :=
  ⟨rfl, rfl, rfl⟩

/-- C2 (amended): after one successful `databases` call whose result is a
truthy (non-empty) list, every subsequent access on the resulting client
returns the memoized list and issues no network request, whatever the
transport would answer. -/
theorem C2_databases_memoized_when_truthy (c : Client) (http http2 : Http)
    (res : Json) (c2 : Client) (t : List HttpRequest)
    (h : c.databases http = (.ok res, c2, t)) (htr : res.truthy = true) :
    c2.databases http2 = (.ok res, c2, []) := by
  have hc2 : c2._databases = some res := by
    unfold Client.databases at h
    by_cases h0 : pyTruthyOptJson c._databases = true
    · rw [if_pos h0] at h
      simp only [Prod.mk.injEq, Except.ok.injEq] at h
      obtain ⟨h1, h2, -⟩ := h
      cases hcd : c._databases with
      | none => rw [hcd] at h0; simp [pyTruthyOptJson] at h0
      | some j =>
        rw [hcd] at h1
        simp only [Option.getD_some] at h1
        rw [← h2, hcd, h1]
    · rw [if_neg h0] at h
      cases hh : http c.allDbsReq with
      | error u => rw [hh] at h; simp at h
      | ok resp =>
        rw [hh] at h
        dsimp only at h
        cases hr : raiseForStatus resp.status with
        | error e => rw [hr] at h; simp at h
        | ok u =>
          rw [hr] at h
          simp only [Prod.mk.injEq, Except.ok.injEq] at h
          obtain ⟨h1, h2, -⟩ := h
          rw [← h2, h1]
  unfold Client.databases
  rw [if_pos (show pyTruthyOptJson c2._databases = true by
    rw [hc2]; simp [pyTruthyOptJson, htr])]
  rw [hc2]
  rfl

/-- C2 witness: a concrete client whose first call returned `["a"]` serves
every later access from the memo even when the transport would fail. -/
theorem C2_witness_memoized_concrete :
    cOneDb.databases hFailTransport = (.ok (Json.arr [Json.str "a"]), cOneDb, []) :=
  C2_databases_memoized_when_truthy c0 hOneDb hFailTransport (Json.arr [Json.str "a"])
    cOneDb [c0.allDbsReq] rfl rfl

/-- C3 counterexample: with the database absent (HEAD answers 404) and a
non-2xx PUT response (301), `create` returns `True` instead of failing
with `RequestError`, because `raise_for_status` raises only for 400–599. -/
theorem C3_counterexample_put_301_returns_true :
    (db0.exists h34).1 = .ok (some false) ∧
    h34 db0.putReq = .ok ⟨301, Json.null⟩ ∧
    (db0.create h34).1 = .ok true :=
  ⟨rfl, rfl, rfl⟩

/-- C3 (amended): if `exists()` returns true, `create()` returns false
having issued only the HEAD request (no PUT); if `exists()` returns false,
it issues the HEAD followed by `PUT {endpoint}/{name}`, returns true when
the PUT status is outside 400–599 (in particular for every 2xx), and fails
with `RequestError` when the PUT status is within 400–599. -/
theorem C3_create_contract (db : Database) (http : Http) :
    ((db.exists http).1 = .ok (some true) → db.create http = (.ok false, [db.headReq])) ∧
    ((db.exists http).1 = .ok (some false) →
      (db.create http).2 = [db.headReq, db.putReq] ∧
      ∀ resp, http db.putReq = .ok resp →
        (¬(400 ≤ resp.status ∧ resp.status < 600) → (db.create http).1 = .ok true) ∧
        ((400 ≤ resp.status ∧ resp.status < 600) →
          (db.create http).1 = .error (.httpError resp.status))) := by
  have htr := exists_trace db http
  constructor
  · intro h1
    rcases hex : db.exists http with ⟨r, t⟩
    rw [hex] at h1 htr
    dsimp only at h1 htr
    subst h1
    subst htr
    unfold Database.create
    rw [hex]
    dsimp only
    rw [if_pos rfl]
  · intro h1
    rcases hex : db.exists http with ⟨r, t⟩
    rw [hex] at h1 htr
    dsimp only at h1 htr
    subst h1
    subst htr
    have hcr : db.create http
        = (match http db.putReq with
          | .error _ => (.error .transport, [db.headReq] ++ [db.putReq])
          | .ok response =>
            match raiseForStatus response.status with
            | .error e => (.error e, [db.headReq] ++ [db.putReq])
            | .ok _ => (.ok true, [db.headReq] ++ [db.putReq])) := by
      unfold Database.create
      rw [hex]
      dsimp only
      rw [if_neg (by simp)]
    constructor
    · rw [hcr]
      cases http db.putReq with
      | error u => rfl
      | ok resp =>
        dsimp only
        cases raiseForStatus resp.status with
        | error e => rfl
        | ok u => rfl
    · intro resp hresp
      rw [hcr, hresp]
      dsimp only
      constructor
      · intro hns
        rw [show raiseForStatus resp.status = .ok () from by
          unfold raiseForStatus; rw [if_neg hns]]
      · intro hs
        rw [show raiseForStatus resp.status = .error (.httpError resp.status) from by
          unfold raiseForStatus; rw [if_pos hs]]

/-- C3 witness: concrete runs of both branches — HEAD 200 makes `create`
return false with only the HEAD issued; HEAD 404 then PUT 500 makes it
fail with the 500 `HTTPError`. -/
theorem C3_witness_create_concrete :
    db0.create hHead200 = (.ok false, [db0.headReq]) ∧
    (db0.create h345).1 = .error (.httpError 500) := by
  constructor
  · exact (C3_create_contract db0 hHead200).1 rfl
  · exact (((C3_create_contract db0 h345).2 rfl).2 ⟨500, Json.null⟩ rfl).2 (by norm_num)

/-- C4 counterexample: `find` called with the empty string as `sort`
argument sends a payload with no `"sort"` key at all — `if sort:` is false
for `""` — rather than the `[{"": "desc"}]` the claim requires. -/
theorem C4_counterexample_empty_string_sort_dropped :
    (db0.find none none (some (SortArg.str "")) true none hFind).2
      = [findReq db0 none none (some (SortArg.str "")) true none] ∧
    traceSortField (db0.find none none (some (SortArg.str "")) true none hFind).2 = none ∧
    traceSortField (db0.find none none (some (SortArg.str "")) true none hFind).2
      ≠ some (Json.arr [Json.obj [("", Json.str "desc")]]) :=
  ⟨rfl, rfl, fun h => Option.noConfusion h⟩

/-- C4 (amended): for a non-empty string `sort` argument the payload's sort
field is the one-element sequence `[{sort: "desc" if descending else
"asc"}]`; for a non-empty list `sort` argument the list is placed in the
payload unchanged and `descending` has no effect on the payload. (Empty
strings and empty lists are falsy and are silently dropped, leaving no
sort key.) -/
theorem C4_sort_argument_polymorphism (db : Database) (sel : Option (List (String × Json)))
    (cols : Option (List Json)) (s : String) (l : List Json) (descending : Bool)
    (lim : Option Int) (http : Http) :
    (s ≠ "" →
      traceSortField (db.find sel cols (some (SortArg.str s)) descending lim http).2
        = some (Json.arr [Json.obj [(s, Json.str (if descending then "desc" else "asc"))]])) ∧
    (l ≠ [] →
      traceSortField (db.find sel cols (some (SortArg.list l)) descending lim http).2
        = some (Json.arr l) ∧
      findPayload sel cols (some (SortArg.list l)) descending lim
        = findPayload sel cols (some (SortArg.list l)) (!descending) lim) := by
  constructor
  · intro hs
    rw [find_trace]
    show (findPayload sel cols (some (SortArg.str s)) descending lim).lookup "sort" = _
    rw [findPayload_lookup_sort, sortEntry_str s hs descending]
    show List.lookup "sort"
        (("sort", Json.arr [Json.obj [(s, Json.str (if descending then "desc" else "asc"))]])
          :: limitEntry lim) = _
    rw [List.lookup_cons]
    rfl
  · intro hl
    constructor
    · rw [find_trace]
      show (findPayload sel cols (some (SortArg.list l)) descending lim).lookup "sort" = _
      rw [findPayload_lookup_sort, sortEntry_list l hl descending]
      show List.lookup "sort" (("sort", Json.arr l) :: limitEntry lim) = _
      rw [List.lookup_cons]
      rfl
    · unfold findPayload
      rw [sortEntry_list_descending_irrelevant l descending (!descending)]

/-- C4 witness: concrete calls — the string `"age"` with `descending` set
becomes `[{"age": "desc"}]`; the list `[{"x": "asc"}]` is passed through. -/
theorem C4_witness_sort_concrete :
    traceSortField (db0.find none none (some (SortArg.str "age")) true none hFind).2
      = some (Json.arr [Json.obj [("age", Json.str (if true then "desc" else "asc"))]]) ∧
    traceSortField (db0.find none none (some (SortArg.list [Json.obj [("x", Json.str "asc")]]))
        false none hFind).2
      = some (Json.arr [Json.obj [("x", Json.str "asc")]]) := by
  constructor
  · exact (C4_sort_argument_polymorphism db0 none none "age" [] true none hFind).1 (by decide)
  · exact ((C4_sort_argument_polymorphism db0 none none ""
      [Json.obj [("x", Json.str "asc")]] false none hFind).2 (by simp)).1

/-- C5: `find` with no arguments issues exactly one POST to
`{endpoint}/{name}/_find` whose body is `{"selector": {}}`; on a 2xx
response whose object body has a `docs` key it returns that value
verbatim, and on a 2xx response whose object body lacks the key it
returns the empty sequence. -/
theorem C5_find_default_payload_and_docs (db : Database) (http : Http) :
    (db.find none none none false none http).2
      = [{ method := .POST, url := db.couchdb_url ++ "/" ++ db.db_name ++ "/_find",
           body := some (Json.obj [("selector", Json.obj [])]),
           auth := mkAuth db.username db.password, verify := db.ca_cert_path }] ∧
    (∀ resp, http (findReq db none none none false none) = .ok resp →
      200 ≤ resp.status → resp.status < 300 →
      ∀ fields, resp.body = Json.obj fields →
        (∀ doc, fields.lookup "docs" = some doc →
          (db.find none none none false none http).1 = .ok doc) ∧
        (fields.lookup "docs" = none →
          (db.find none none none false none http).1 = .ok (Json.arr []))) := by
  constructor
  · rw [find_trace]
    rfl
  · intro resp hresp h2 h3 fields hbody
    have hfind : (db.find none none none false none http).1 = .ok (docsOf resp.body) := by
      unfold Database.find
      rw [hresp]
      dsimp only
      rw [show raiseForStatus resp.status = .ok () from by
        unfold raiseForStatus; rw [if_neg (by omega)]]
    constructor
    · intro doc hdoc
      rw [hfind, hbody]
      unfold docsOf
      dsimp only
      rw [hdoc]
    · intro hdoc
      rw [hfind, hbody]
      unfold docsOf
      dsimp only
      rw [hdoc]

/-- C5 witness: concrete 200 responses with and without a `docs` key. -/
theorem C5_witness_find_concrete :
    (db0.find none none none false none hDocs).1 = .ok (Json.arr [Json.num 1]) ∧
    (db0.find none none none false none hNoDocs).1 = .ok (Json.arr []) := by
  constructor
  · exact ((C5_find_default_payload_and_docs db0 hDocs).2
      ⟨200, Json.obj [("docs", Json.arr [Json.num 1])]⟩ rfl (by norm_num) (by norm_num)
      [("docs", Json.arr [Json.num 1])] rfl).1 (Json.arr [Json.num 1]) rfl
  · exact ((C5_find_default_payload_and_docs db0 hNoDocs).2
      ⟨200, Json.obj [("x", Json.null)]⟩ rfl (by norm_num) (by norm_num)
      [("x", Json.null)] rfl).2 rfl

/-- C6: whenever `Client.databases` fails with a `RequestError` (HTTP error
status or transport failure), the memo field is left unchanged — the
client comes back exactly as it was — and a later access issues the
network request again. -/
theorem C6_databases_error_not_cached (c : Client) (http http2 : Http)
    (e : RequestError) (c2 : Client) (t : List HttpRequest)
    (h : c.databases http = (.error e, c2, t)) :
    c2 = c ∧ (c2.databases http2).2.2 = [c.allDbsReq] := by
  have h0 : pyTruthyOptJson c._databases = false := by
    by_cases h0 : pyTruthyOptJson c._databases = true
    · exfalso
      unfold Client.databases at h
      rw [if_pos h0] at h
      simp at h
    · simpa using h0
  have hc2 : c2 = c := by
    unfold Client.databases at h
    rw [if_neg (by simp [h0])] at h
    cases hh : http c.allDbsReq with
    | error u =>
      rw [hh] at h
      simp only [Prod.mk.injEq] at h
      exact h.2.1.symm
    | ok resp =>
      rw [hh] at h
      dsimp only at h
      cases hr : raiseForStatus resp.status with
      | error e2 =>
        rw [hr] at h
        simp only [Prod.mk.injEq] at h
        exact h.2.1.symm
      | ok u =>
        rw [hr] at h
        simp at h
  subst hc2
  exact ⟨rfl, databases_fetch_trace c2 http2 h0⟩

/-- C6 witness: a concrete 500 listing failure leaves the client unchanged
and the next access issues the GET again. -/
theorem C6_witness_error_not_cached :
    c0 = c0 ∧ (c0.databases h500).2.2 = [c0.allDbsReq] :=
  C6_databases_error_not_cached c0 h500 h500 (.httpError 500) c0 [c0.allDbsReq] rfl

/-- C7: for every operation, basic-auth credentials are attached to each
issued request exactly when both username and password are truthy
(present and non-empty); the attached pair is the username and password
themselves, and a missing or empty username or password yields an
unauthenticated request. -/
theorem C7_auth_attached_iff_both_credentials (db : Database) (c : Client)
    (sel : Option (List (String × Json))) (cols : Option (List Json))
    (sortArg : Option SortArg) (descending : Bool) (lim : Option Int)
    (records : List Json) (document : Json) (http : Http) :
    (∀ r ∈ (db.exists http).2, r.auth = mkAuth db.username db.password) ∧
    (∀ r ∈ (db.create http).2, r.auth = mkAuth db.username db.password) ∧
    (∀ r ∈ (db.find sel cols sortArg descending lim http).2,
      r.auth = mkAuth db.username db.password) ∧
    (∀ r ∈ (db.insert_one document http).2, r.auth = mkAuth db.username db.password) ∧
    (∀ r ∈ (db.insert_many records http).2, r.auth = mkAuth db.username db.password) ∧
    (∀ r ∈ (c.databases http).2.2, r.auth = mkAuth c.username c.password) ∧
    (∀ u p s t, u = some s → p = some t → s ≠ "" → t ≠ "" → mkAuth u p = some (s, t)) ∧
    (∀ u, mkAuth u none = none) ∧ (∀ u, mkAuth none u = none) ∧
    (∀ u, mkAuth u (some "") = none) ∧ (∀ u, mkAuth (some "") u = none) := by
  refine ⟨?_, ?_, ?_, ?_, ?_, ?_, ?_, ?_, ?_, ?_, ?_⟩
  · intro r hr
    rw [exists_trace] at hr
    rw [List.mem_singleton] at hr
    subst hr
    rfl
  · intro r hr
    rcases create_trace_cases db http with hc | hc <;> rw [hc] at hr
    · rw [List.mem_singleton] at hr
      subst hr
      rfl
    · rw [List.mem_cons] at hr
      rcases hr with hr | hr
      · subst hr
        rfl
      · rw [List.mem_singleton] at hr
        subst hr
        rfl
  · intro r hr
    rw [find_trace] at hr
    rw [List.mem_singleton] at hr
    subst hr
    rfl
  · intro r hr
    rw [insert_one_trace] at hr
    rw [List.mem_singleton] at hr
    subst hr
    rfl
  · intro r hr
    rw [insert_many_trace] at hr
    rw [List.mem_singleton] at hr
    subst hr
    rfl
  · intro r hr
    by_cases h0 : pyTruthyOptJson c._databases = true
    · unfold Client.databases at hr
      rw [if_pos h0] at hr
      simp at hr
    · rw [databases_fetch_trace c http (by simpa using h0)] at hr
      rw [List.mem_singleton] at hr
      subst hr
      rfl
  · intro u p s t hu hp hs ht
    subst hu
    subst hp
    unfold mkAuth
    rw [if_pos (by simp [pyTruthyStr, hs, ht])]
    rfl
  · intro u
    unfold mkAuth
    rw [if_neg (by simp [pyTruthyStr])]
  · intro u
    unfold mkAuth
    rw [if_neg (by simp [pyTruthyStr])]
  · intro u
    unfold mkAuth
    rw [if_neg (by simp [pyTruthyStr])]
  · intro u
    unfold mkAuth
    rw [if_neg (by simp [pyTruthyStr])]

/-- C7 witness: the authenticated handle attaches exactly its credential
pair to the HEAD request of `exists`. -/
theorem C7_witness_auth_concrete :
    dbA.headReq.auth = mkAuth (some "u") (some "p") ∧
    mkAuth (some "u") (some "p") = some ("u", "p") := by
  have h := C7_auth_attached_iff_both_credentials dbA c0 none none none false none
    [] Json.null hHead200
  constructor
  · exact h.1 dbA.headReq (by rw [exists_trace]; exact List.mem_singleton.mpr rfl)
  · exact h.2.2.2.2.2.2.1 (some "u") (some "p") "u" "p" rfl rfl (by decide) (by decide)

/-- C8: a Client or Database constructed with an endpoint carrying one or
more trailing slashes equals (field for field, hence for every request
URL) the one constructed from the same endpoint without them, and a
stored endpoint never ends in a slash. -/
theorem C8_endpoint_trailing_slash (e : String) (k : Nat) (u p ca : Option String)
    (n : String) (hk : 1 ≤ k) :
    Client.init (e ++ String.mk (List.replicate k '/')) u p ca = Client.init e u p ca ∧
    Database.init (e ++ String.mk (List.replicate k '/')) u p ca n
      = Database.init e u p ca n ∧
    (Client.init e u p ca).couchdb_url.data.getLast? ≠ some '/' ∧
    (Database.init e u p ca n).couchdb_url.data.getLast? ≠ some '/' := by
  refine ⟨?_, ?_, ?_, ?_⟩
  · unfold Client.init
    rw [rstripSlashes_append_slashes]
  · unfold Database.init
    rw [rstripSlashes_append_slashes]
  · exact rstripSlashes_no_trailing e
  · exact rstripSlashes_no_trailing e

/-- C8 witness: two trailing slashes on a concrete endpoint. -/
theorem C8_witness_trailing_slash_concrete :
    Client.init ("http://h" ++ String.mk (List.replicate 2 '/')) (some "u") none none
      = Client.init "http://h" (some "u") none none ∧
    Database.init ("http://h" ++ String.mk (List.replicate 2 '/')) (some "u") none none "db"
      = Database.init "http://h" (some "u") none none "db" ∧
    (Client.init "http://h" (some "u") none none).couchdb_url.data.getLast? ≠ some '/' ∧
    (Database.init "http://h" (some "u") none none "db").couchdb_url.data.getLast?
      ≠ some '/' :=
  C8_endpoint_trailing_slash "http://h" 2 (some "u") none none "db" (by norm_num)

/-- C9: `insert_many` issues exactly one POST to
`{endpoint}/{name}/_bulk_docs` with body `{"docs": records}`; on a 2xx
response it returns the decoded body unchanged, and whenever it fails the
transport failed or the response status was not 2xx (per-document errors
inside a 2xx body never fail the call). -/
theorem C9_insert_many_contract (db : Database) (records : List Json) (http : Http) :
    (db.insert_many records http).2 = [bulkDocsReq db records] ∧
    bulkDocsReq db records
      = { method := .POST, url := db.couchdb_url ++ "/" ++ db.db_name ++ "/_bulk_docs",
          body := some (Json.obj [("docs", Json.arr records)]),
          auth := mkAuth db.username db.password, verify := db.ca_cert_path } ∧
    (∀ resp, http (bulkDocsReq db records) = .ok resp → 200 ≤ resp.status →
      resp.status < 300 → (db.insert_many records http).1 = .ok resp.body) ∧
    (∀ e, (db.insert_many records http).1 = .error e →
      http (bulkDocsReq db records) = .error () ∨
      ∃ resp, http (bulkDocsReq db records) = .ok resp ∧
        ¬(200 ≤ resp.status ∧ resp.status < 300)) := by
  refine ⟨insert_many_trace db records http, rfl, ?_, ?_⟩
  · intro resp hresp h2 h3
    unfold Database.insert_many
    rw [hresp]
    dsimp only
    rw [show raiseForStatus resp.status = .ok () from by
      unfold raiseForStatus; rw [if_neg (by omega)]]
  · intro e he
    cases hh : http (bulkDocsReq db records) with
    | error u => exact Or.inl (by cases u; rfl)
    | ok resp =>
      refine Or.inr ⟨resp, rfl, ?_⟩
      rintro ⟨h2, h3⟩
      unfold Database.insert_many at he
      rw [hh] at he
      dsimp only at he
      rw [show raiseForStatus resp.status = .ok () from by
        unfold raiseForStatus; rw [if_neg (by omega)]] at he
      exact Except.noConfusion he

/-- C9 witness: a concrete bulk insert whose 200 response body is returned
unchanged. -/
theorem C9_witness_insert_many_concrete :
    (db0.insert_many [Json.obj [("a", Json.num 1)]] hDocs).1
      = .ok (Json.obj [("docs", Json.arr [Json.num 1])]) :=
  (C9_insert_many_contract db0 [Json.obj [("a", Json.num 1)]] hDocs).2.2.1
    ⟨200, Json.obj [("docs", Json.arr [Json.num 1])]⟩ rfl (by norm_num) (by norm_num)

/-- C10: `find` silently drops falsy or unrecognized arguments: a `limit`
of `None` or `0` leaves no `limit` key, `columns` of `None` or the empty
list leaves no `fields` key, and a truthy `sort` that is neither a string
nor a list leaves no `sort` key, in the single POST request issued. -/
theorem C10_find_dropped_arguments (db : Database) (sel : Option (List (String × Json)))
    (cols : Option (List Json)) (sortArg : Option SortArg) (descending : Bool)
    (lim : Option Int) (http : Http) :
    (db.find sel cols sortArg descending lim http).2
      = [findReq db sel cols sortArg descending lim] ∧
    ((lim = none ∨ lim = some 0) →
      (findPayload sel cols sortArg descending lim).lookup "limit" = none) ∧
    ((cols = none ∨ cols = some []) →
      (findPayload sel cols sortArg descending lim).lookup "fields" = none) ∧
    (sortArg = some (SortArg.other true) →
      (findPayload sel cols sortArg descending lim).lookup "sort" = none) := by
  refine ⟨find_trace db sel cols sortArg descending lim http, ?_, ?_, ?_⟩
  · intro hlim
    unfold findPayload
    rw [List.append_assoc, List.append_assoc,
      lookup_append_of_none (selectorEntry_lookup_ne sel "limit" rfl),
      lookup_append_of_none (fieldsEntry_lookup_ne cols "limit" rfl),
      lookup_append_of_none (sortEntry_lookup_ne sortArg descending "limit" rfl)]
    rcases hlim with h | h <;> subst h <;> rfl
  · intro hcols
    unfold findPayload
    rw [List.append_assoc, List.append_assoc,
      lookup_append_of_none (selectorEntry_lookup_ne sel "fields" rfl)]
    have hf : fieldsEntry cols = [] := by rcases hcols with h | h <;> subst h <;> rfl
    rw [hf,
      show (([] : List (String × Json))
          ++ (sortEntry sortArg descending ++ limitEntry lim))
        = sortEntry sortArg descending ++ limitEntry lim from rfl,
      lookup_append_of_none (sortEntry_lookup_ne sortArg descending "fields" rfl)]
    exact limitEntry_lookup_ne lim "fields" rfl
  · intro hsort
    subst hsort
    unfold findPayload
    rw [List.append_assoc, List.append_assoc,
      lookup_append_of_none (selectorEntry_lookup_ne sel "sort" rfl),
      lookup_append_of_none (fieldsEntry_lookup_ne cols "sort" rfl),
      show sortEntry (some (SortArg.other true)) descending = [] from rfl,
      show (([] : List (String × Json)) ++ limitEntry lim) = limitEntry lim from rfl]
    exact limitEntry_lookup_ne lim "sort" rfl

/-- C10 witness: a concrete call with `limit=0`, empty `columns`, and a
truthy non-string non-list `sort` produces a payload with none of the
three keys. -/
theorem C10_witness_dropped_concrete :
    (findPayload none (some []) (some (SortArg.other true)) false (some 0)).lookup "limit"
      = none ∧
    (findPayload none (some []) (some (SortArg.other true)) false (some 0)).lookup "fields"
      = none ∧
    (findPayload none (some []) (some (SortArg.other true)) false (some 0)).lookup "sort"
      = none := by
  obtain ⟨-, h1, h2, h3⟩ := C10_find_dropped_arguments db0 none (some [])
    (some (SortArg.other true)) false (some 0) hFind
  exact ⟨h1 (Or.inr rfl), h2 (Or.inr rfl), h3 rfl⟩

end Futon
